import Mathlib

/-!
Shallow embedding of the Streamlit RAG client (the repository's single
source file).  The module-level configuration, the three transport helpers
`check_backend_health`, `build_index`, `ask_question`, and the result
rendering performed by the top-level UI code are translated into pure Lean
functions.  HTTP traffic is modelled by an oracle `net : Request →
HttpOutcome`; each transport helper additionally returns the list of
requests it issued, so that "no network call" is expressible.  Python
exceptions are modelled by `Except PyExn`.
-/

set_option autoImplicit false

namespace StudyAssistant

/-- JSON values as Python's `json` module produces them (numbers restricted
to integers, which is all this client ever receives in the spec's data
model). -/
inductive Json where
  | null
  | bool (b : Bool)
  | num (n : Int)
  | str (s : String)
  | arr (elems : List Json)
  | obj (fields : List (String × Json))

/-- Python exceptions that the embedded code can raise. -/
inductive PyExn where
  | attributeError
  | keyError
  | typeError
  | jsonDecodeError
  deriving Repr, DecidableEq

/-- First-match association-list lookup, the model of Python dict access
(parsed JSON objects have unique keys, so first match is dict semantics). -/
def lookupKey (k : String) : List (String × Json) → Option Json
  | [] => none
  | (k2, v) :: rest => if k2 == k then some v else lookupKey k rest

/-- Python `d.get(k, default)`: only dicts have `.get`, anything else raises
`AttributeError`. -/
def pyGet (j : Json) (k : String) (dflt : Json) : Except PyExn Json :=
  match j with
  | .obj fields => .ok ((lookupKey k fields).getD dflt)
  | _ => .error .attributeError

/-- Python `d[k]` subscription: `KeyError` on a missing key, `TypeError`
when the value is not subscriptable by a string. -/
def pyGetItem (j : Json) (k : String) : Except PyExn Json :=
  match j with
  | .obj fields =>
      match lookupKey k fields with
      | some v => .ok v
      | none => .error .keyError
  | _ => .error .typeError

/-- Whether `needle` occurs as a leading segment of `hay`. -/
def charsStartWith : List Char → List Char → Bool
  | [], _ => true
  | _ :: _, [] => false
  | n :: ns, h :: hs => n == h && charsStartWith ns hs

/-- Whether `needle` occurs as a contiguous segment of `hay`. -/
def charsContain (needle hay : List Char) : Bool :=
  charsStartWith needle hay ||
    match hay with
    | [] => false
    | _ :: hs => charsContain needle hs

/-- Python `k in j` for a string `k`: key membership on dicts, element
membership on lists, substring test on strings, `TypeError` otherwise. -/
def pyContains (k : String) (j : Json) : Except PyExn Bool :=
  match j with
  | .obj fields => .ok (fields.any fun p => p.1 == k)
  | .arr elems => .ok (elems.any fun e => match e with | .str s => s == k | _ => false)
  | .str s => .ok (charsContain k.data s.data)
  | _ => .error .typeError

mutual

/-- Python `repr` of a JSON-shaped value (`str` on non-string values
delegates to this; dicts and lists render with single quotes). -/
def pyRepr : Json → String
  | .null => "None"
  | .bool true => "True"
  | .bool false => "False"
  | .num n => toString n
  | .str s => "\x27" ++ s ++ "\x27"
  | .arr elems => "[" ++ pyReprElems elems ++ "]"
  | .obj fields => "\x7b" ++ pyReprFields fields ++ "\x7d"

def pyReprElems : List Json → String
  | [] => ""
  | [e] => pyRepr e
  | e :: rest => pyRepr e ++ ", " ++ pyReprElems rest

def pyReprFields : List (String × Json) → String
  | [] => ""
  | [(k, v)] => "\x27" ++ k ++ "\x27: " ++ pyRepr v
  | (k, v) :: rest => "\x27" ++ k ++ "\x27: " ++ pyRepr v ++ ", " ++ pyReprFields rest

end

/-- Python `str` applied to a JSON-shaped value, as an f-string does. -/
def pyStr : Json → String
  | .str s => s
  | j => pyRepr j

/-- Python `s.strip()` (whitespace trim on both ends). -/
def pyStrip (s : String) : String :=
  String.mk
    (((s.data.dropWhile Char.isWhitespace).reverse.dropWhile Char.isWhitespace).reverse)

/-- Python `s.rstrip("/")`: drop every trailing slash. -/
def pyRstripSlash (s : String) : String :=
  String.mk ((s.data.reverse.dropWhile fun c => c == '/').reverse)

/-- The compiled-in default backend address (source line 13). -/
def DEFAULT_BACKEND : String := "https://ai-study-assistant-7oub.onrender.com"

/-- `BACKEND_URL = os.getenv("BACKEND_URL", default).rstrip("/")`
(source lines 11-14); `env` is the value of the environment variable,
`none` when unset. -/
def BACKEND_URL (env : Option String) : String :=
  pyRstripSlash (env.getD DEFAULT_BACKEND)

/-- An uploaded document: filename plus in-memory content (after
`f.seek(0)`, `f.read()` yields the full content). -/
structure UploadedFile where
  name : String
  content : String
  deriving Repr

/-- An HTTP request as the client issues it: method/shape, full URL, payload
and timeout in seconds. -/
inductive Request where
  | get (url : String) (timeout : Nat)
  | postMultipart (url : String) (parts : List (String × String × String × String)) (timeout : Nat)
  | postJson (url : String) (body : Json) (timeout : Nat)

/-- An HTTP response: status code, raw body text, and the result of
`resp.json()` (`none` when the body does not parse as JSON). -/
structure Response where
  status : Nat
  text : String
  jsonBody : Option Json

/-- Outcome of one call into `requests`: either the library raised
(transport fault, with the exception's string rendering) or a response
came back. -/
inductive HttpOutcome where
  | exn (cause : String)
  | resp (r : Response)

/-- The multipart request `build_index` posts: one `files` part per
uploaded file, `(field, filename, bytes, mime)` (source lines 37-53). -/
def buildRequest (burl : String) (files : List UploadedFile) : Request :=
  .postMultipart (burl ++ "/build_index")
    (files.map fun f => ("files", f.name, f.content, "application/pdf")) 300

/-- The JSON request `ask_question` posts (source lines 77-84). -/
def askRequest (burl : String) (q : String) : Request :=
  .postJson (burl ++ "/ask") (.obj [("question", .str q)]) 120

/-- `check_backend_health` (source lines 21-26): `GET {BACKEND_URL}/health`
with a 10 s timeout inside `try`, `status_code == 200` on a response,
`False` on any exception. -/
def check_backend_health (burl : String) (net : Request → HttpOutcome) : Bool :=
  match net (.get (burl ++ "/health") 10) with
  | .exn _ => false
  | .resp r => r.status == 200

/-- `build_index` (source lines 29-66).  Returns the Python result
(`Except` separates a raised exception from a returned dict) paired with
the list of HTTP requests issued. -/
def build_index (burl : String) (files : List UploadedFile)
    (net : Request → HttpOutcome) : Except PyExn Json × List Request :=
  if files.isEmpty then
    (.ok (.obj [("error", .str "Please upload at least one PDF.")]), [])
  else
    let req := buildRequest burl files
    match net req with
    | .exn cause =>
        (.ok (.obj [("error", .str ("Failed to reach backend: " ++ cause))]), [req])
    | .resp r =>
        if r.status ≠ 200 then
          let data := match r.jsonBody with
            | some j => j
            | none => Json.obj [("detail", Json.str r.text)]
          match pyGet data "detail" data with
          | .error e => (.error e, [req])
          | .ok detail =>
              (.ok (.obj [("error",
                .str ("Backend error (" ++ toString r.status ++ "): " ++ pyStr detail))]), [req])
        else
          match r.jsonBody with
          | some j => (.ok j, [req])
          | none => (.error .jsonDecodeError, [req])

/-- `ask_question` (source lines 69-97).  The error normalisation is the
source's own duplicate of the one in `build_index`. -/
def ask_question (burl : String) (q : String)
    (net : Request → HttpOutcome) : Except PyExn Json × List Request :=
  if (pyStrip q).isEmpty then
    (.ok (.obj [("error", .str "Please enter a question.")]), [])
  else
    let req := askRequest burl q
    match net req with
    | .exn cause =>
        (.ok (.obj [("error", .str ("Failed to reach backend: " ++ cause))]), [req])
    | .resp r =>
        if r.status ≠ 200 then
          let data := match r.jsonBody with
            | some j => j
            | none => Json.obj [("detail", Json.str r.text)]
          match pyGet data "detail" data with
          | .error e => (.error e, [req])
          | .ok detail =>
              (.ok (.obj [("error",
                .str ("Backend error (" ++ toString r.status ++ "): " ++ pyStr detail))]), [req])
        else
          match r.jsonBody with
          | some j => (.ok j, [req])
          | none => (.error .jsonDecodeError, [req])

/-- What the build workflow renders from a `build_index` result. -/
inductive BuildRender where
  | failure (msg : Json)
  | success (chunks : Json)

/-- Build-result rendering (source lines 152-156): failure iff
`"error" in result`, rendering `result["error"]`; otherwise success with
`result.get("chunks", 0)`. -/
def renderBuildResult (result : Json) : Except PyExn BuildRender :=
  match pyContains "error" result with
  | .error e => .error e
  | .ok true =>
      match pyGetItem result "error" with
      | .error e => .error e
      | .ok m => .ok (.failure m)
  | .ok false =>
      match pyGet result "chunks" (.num 0) with
      | .error e => .error e
      | .ok c => .ok (.success c)

/-- What the ask workflow renders from an `ask_question` result. -/
inductive AskRender where
  | failure (msg : Json)
  | success (answer context chunks : Json)

/-- Ask-result rendering (source lines 182-192): failure iff
`"error" in result`; otherwise `result.get("answer", "No answer returned.")`,
`result.get("context", "")` and `result.get("chunks", [])`. -/
def renderAskResult (result : Json) : Except PyExn AskRender :=
  match pyContains "error" result with
  | .error e => .error e
  | .ok true =>
      match pyGetItem result "error" with
      | .error e => .error e
      | .ok m => .ok (.failure m)
  | .ok false =>
      match pyGet result "answer" (.str "No answer returned.") with
      | .error e => .error e
      | .ok a =>
          match pyGet result "context" (.str "") with
          | .error e => .error e
          | .ok c =>
              match pyGet result "chunks" (.arr []) with
              | .error e => .error e
              | .ok ch => .ok (.success a c ch)

/-- True when the build workflow presents the result as a failure. -/
def buildRendersFailure (result : Json) : Bool :=
  match renderBuildResult result with
  | .ok (.failure _) => true
  | _ => false

/-- True when the ask workflow presents the result as a failure. -/
def askRendersFailure (result : Json) : Bool :=
  match renderAskResult result with
  | .ok (.failure _) => true
  | _ => false

/-- The `<detail>` string a non-success response produces, when the error
path returns at all: the raw text when the body does not parse as JSON, the
`detail` field (else the stringified object) when it parses as an object,
and `none` (the path raises) on any other JSON value. -/
def backendDetail (r : Response) : Option String :=
  match r.jsonBody with
  | none => some r.text
  | some (.obj fields) => some (pyStr ((lookupKey "detail" fields).getD (.obj fields)))
  | some _ => none

/-- The value both transport helpers return on a non-success status
(factored from the source's two verbatim copies, lines 57-64 and 88-95),
`Except.error` marking the path where the Python code raises. -/
def backendErrorResult (r : Response) : Except PyExn Json :=
  let data := match r.jsonBody with
    | some j => j
    | none => Json.obj [("detail", Json.str r.text)]
  match pyGet data "detail" data with
  | .error e => .error e
  | .ok detail =>
      .ok (.obj [("error",
        .str ("Backend error (" ++ toString r.status ++ "): " ++ pyStr detail))])

/-- A concrete uploaded document used in witnesses. -/
def sampleFile : UploadedFile := ⟨"notes.pdf", "pdfbytes"⟩

/-- A status-500 response whose body parses to a JSON object with a
`detail` field, as in the spec's example. -/
def resp500 : Response := ⟨500, "ignored", some (.obj [("detail", .str "index corrupt")])⟩

/-- A backend that always answers with `resp500`. -/
def resp500Net : Request → HttpOutcome := fun _ => .resp resp500

/-- A backend whose every call raises with cause string `boom`. -/
def exnNet : Request → HttpOutcome := fun _ => .exn "boom"

/-- A status-500 response whose body parses to a JSON array. -/
def arrayBodyResp : Response := ⟨500, "[]", some (.arr [])⟩

/-- A backend that always answers with `arrayBodyResp`. -/
def arrayBody500Net : Request → HttpOutcome := fun _ => .resp arrayBodyResp

/-- The spec's example success body for the ask operation. -/
def askSuccessBody : Json :=
  .obj [("answer", .str "X"), ("context", .str "Y"),
        ("chunks", .arr [.obj [("text", .str "t"),
          ("metadata", .obj [("source_file", .str "a.pdf"), ("chunk_index", .num 3)])]])]

/-- A backend answering 200 with the spec's example bodies: a chunk count
for the multipart build call and `askSuccessBody` for the ask call. -/
def successNet : Request → HttpOutcome
  | .postMultipart _ _ _ => .resp ⟨200, "", some (.obj [("chunks", .num 42)])⟩
  | .postJson _ _ _ => .resp ⟨200, "", some askSuccessBody⟩
  | .get _ _ => .exn "unused"

/-- A backend answering 200 with a body that itself contains an `error`
key. -/
def errorBodyNet : Request → HttpOutcome :=
  fun _ => .resp ⟨200, "", some (.obj [("error", .str "boom")])⟩

/-- A 200 response whose body is missing the `answer` field. -/
def noAnswerBody : Json := .obj [("context", .str "Y"), ("chunks", .arr [])]

/-- A backend answering 200 with `noAnswerBody`. -/
def noAnswerBodyNet : Request → HttpOutcome := fun _ => .resp ⟨200, "", some noAnswerBody⟩

theorem isEmpty_false_of_ne_nil {files : List UploadedFile} (hf : files ≠ []) :
    files.isEmpty = false := by
  cases files with
  | nil => exact absurd rfl hf
  | cons a t => rfl

theorem string_isEmpty_false {s : String} (h : s ≠ "") : s.isEmpty = false := by
  cases he : s.isEmpty with
  | false => rfl
  | true => exact absurd ((String.isEmpty_iff s).mp he) h

theorem lookupKey_isSome_eq_any (k : String) (fs : List (String × Json)) :
    (lookupKey k fs).isSome = fs.any fun p => p.1 == k := by
  induction fs with
  | nil => rfl
  | cons p rest ih =>
      obtain ⟨k2, v⟩ := p
      cases h : k2 == k with
      | true => simp [lookupKey, h]
      | false => simp [lookupKey, h, ih]

theorem head?_dropWhile_false {p : Char → Bool} {l : List Char} {c : Char}
    (h : (l.dropWhile p).head? = some c) : p c = false := by
  induction l with
  | nil => simp [List.dropWhile] at h
  | cons a t ih =>
      cases ha : p a with
      | true =>
          simp only [List.dropWhile_cons, ha, if_true] at h
          exact ih h
      | false =>
          simp only [List.dropWhile_cons, ha, Bool.false_eq_true, if_false,
            List.head?_cons, Option.some.injEq] at h
          exact h ▸ ha

theorem build_index_error_branch (burl : String) (files : List UploadedFile)
    (net : Request → HttpOutcome) (r : Response)
    (hf : files ≠ []) (hb : net (buildRequest burl files) = .resp r)
    (hs : r.status ≠ 200) :
    build_index burl files net = (backendErrorResult r, [buildRequest burl files]) := by
  have hfe := isEmpty_false_of_ne_nil hf
  simp only [build_index, hfe, Bool.false_eq_true, if_false, hb]
  rw [if_pos hs]
  simp only [backendErrorResult]
  cases hj : r.jsonBody with
  | none => rfl
  | some j =>
      cases hpg : pyGet j "detail" j with
      | error e => simp [hpg]
      | ok d => simp [hpg]

theorem ask_question_error_branch (burl q : String)
    (net : Request → HttpOutcome) (r : Response)
    (hq : pyStrip q ≠ "") (ha : net (askRequest burl q) = .resp r)
    (hs : r.status ≠ 200) :
    ask_question burl q net = (backendErrorResult r, [askRequest burl q]) := by
  have hqe := string_isEmpty_false hq
  simp only [ask_question, hqe, Bool.false_eq_true, if_false, ha]
  rw [if_pos hs]
  simp only [backendErrorResult]
  cases hj : r.jsonBody with
  | none => rfl
  | some j =>
      cases hpg : pyGet j "detail" j with
      | error e => simp [hpg]
      | ok d => simp [hpg]

/-- C3: `check_backend_health` returns `true` exactly when the probe came
back as a response with status 200, and `false` (it never raises) on every
fault: a raised exception (connection refused, timeout, malformed
response) or any non-200 status. -/
theorem health_check_success_iff (burl : String) (net : Request → HttpOutcome) :
    check_backend_health burl net = true ↔
      ∃ r : Response, net (.get (burl ++ "/health") 10) = .resp r ∧ r.status = 200 := by
  unfold check_backend_health
  cases h : net (.get (burl ++ "/health") 10) with
  | exn c => simp
  | resp r => simp [beq_iff_eq]

/-- C4: on an empty document sequence `build_index` returns the validation
error dict and issues no network request at all. -/
theorem build_index_empty_no_network (burl : String) (net : Request → HttpOutcome) :
    build_index burl [] net =
      (.ok (.obj [("error", .str "Please upload at least one PDF.")]), ([] : List Request)) :=
  rfl

/-- C5: on a question that trims to the empty string, `ask_question`
returns the validation error dict and issues no network request at all. -/
theorem ask_question_blank_no_network (burl q : String) (net : Request → HttpOutcome)
    (hq : pyStrip q = "") :
    ask_question burl q net =
      (.ok (.obj [("error", .str "Please enter a question.")]), ([] : List Request)) := by
  unfold ask_question
  rw [hq]
  rfl

theorem ask_question_blank_no_network_witness :
    ask_question "u" " " exnNet =
      (.ok (.obj [("error", .str "Please enter a question.")]), ([] : List Request)) :=
  ask_question_blank_no_network "u" " " exnNet rfl

/-- C8: when the transport layer raises, both `build_index` and
`ask_question` return (never raise) the error dict whose message is
`Failed to reach backend: <cause>`. -/
theorem transport_fault_message (burl cause : String) (files : List UploadedFile)
    (q : String) (net : Request → HttpOutcome)
    (hf : files ≠ []) (hq : pyStrip q ≠ "")
    (hb : net (buildRequest burl files) = .exn cause)
    (ha : net (askRequest burl q) = .exn cause) :
    (build_index burl files net).1 =
      .ok (.obj [("error", .str ("Failed to reach backend: " ++ cause))]) ∧
    (ask_question burl q net).1 =
      .ok (.obj [("error", .str ("Failed to reach backend: " ++ cause))]) := by
  have hfe := isEmpty_false_of_ne_nil hf
  have hqe := string_isEmpty_false hq
  constructor
  · simp [build_index, hfe, hb]
  · simp [ask_question, hqe, ha]

theorem transport_fault_message_witness :
    (build_index "u" [sampleFile] exnNet).1 =
      .ok (.obj [("error", .str "Failed to reach backend: boom")]) ∧
    (ask_question "u" "What is TCP?" exnNet).1 =
      .ok (.obj [("error", .str "Failed to reach backend: boom")]) :=
  transport_fault_message "u" "boom" [sampleFile] "What is TCP?" exnNet
    (List.cons_ne_nil _ _) (by decide) rfl rfl

/-- C1 counterexample: a status-500 response whose body parses as a JSON
array makes `build_index` raise `AttributeError` (Python calls `.get` on a
list) instead of returning an error result, so the claim does not hold for
every non-success response. -/
theorem build_index_array_error_body_raises :
    (build_index "u" [sampleFile] arrayBody500Net).1 = .error .attributeError :=
  rfl

/-- C1 (amended): for every non-success response whose body fails to parse
as JSON or parses as a JSON object, both operations return the error dict
`Backend error (<status>): <detail>`, with `<detail>` the structured
detail (`backendDetail`): the `detail` field when present, else the
stringified object, else the raw response text. -/
theorem backend_error_message (burl : String) (files : List UploadedFile) (q : String)
    (net : Request → HttpOutcome) (r : Response) (d : String)
    (hf : files ≠ []) (hq : pyStrip q ≠ "")
    (hb : net (buildRequest burl files) = .resp r)
    (ha : net (askRequest burl q) = .resp r)
    (hs : r.status ≠ 200) (hd : backendDetail r = some d) :
    (build_index burl files net).1 =
      .ok (.obj [("error", .str ("Backend error (" ++ toString r.status ++ "): " ++ d))]) ∧
    (ask_question burl q net).1 =
      .ok (.obj [("error", .str ("Backend error (" ++ toString r.status ++ "): " ++ d))]) := by
  have key : backendErrorResult r =
      .ok (.obj [("error", .str ("Backend error (" ++ toString r.status ++ "): " ++ d))]) := by
    obtain ⟨st, tx, jb⟩ := r
    cases jb with
    | none =>
        have hd2 : tx = d := by simpa [backendDetail] using hd
        rw [← hd2]
        rfl
    | some j =>
        cases j with
        | null => simp [backendDetail] at hd
        | bool b => simp [backendDetail] at hd
        | num n => simp [backendDetail] at hd
        | str s => simp [backendDetail] at hd
        | arr elems => simp [backendDetail] at hd
        | obj fields =>
            have hd2 : pyStr ((lookupKey "detail" fields).getD (.obj fields)) = d := by
              simpa [backendDetail] using hd
            rw [← hd2]
            rfl
  rw [build_index_error_branch burl files net r hf hb hs,
    ask_question_error_branch burl q net r hq ha hs]
  exact ⟨key, key⟩

theorem backend_error_message_witness :
    (build_index "u" [sampleFile] resp500Net).1 =
      .ok (.obj [("error", .str "Backend error (500): index corrupt")]) ∧
    (ask_question "u" "What is X?" resp500Net).1 =
      .ok (.obj [("error", .str "Backend error (500): index corrupt")]) :=
  backend_error_message "u" [sampleFile] "What is X?" resp500Net resp500 "index corrupt"
    (List.cons_ne_nil _ _) (by decide) rfl rfl (by decide) rfl

/-- C2: on the same outcome — a transport fault with the same cause, or a
response with the same non-success status and body — `build_index` and
`ask_question` produce identical results, bit for bit. -/
theorem error_paths_identical (burl : String) (files : List UploadedFile) (q : String)
    (o : HttpOutcome) (hf : files ≠ []) (hq : pyStrip q ≠ "")
    (h : (∃ c, o = .exn c) ∨ ∃ r, o = .resp r ∧ r.status ≠ 200) :
    (build_index burl files (fun _ => o)).1 = (ask_question burl q (fun _ => o)).1 := by
  have hfe := isEmpty_false_of_ne_nil hf
  have hqe := string_isEmpty_false hq
  obtain ⟨c, rfl⟩ | ⟨r, rfl, hs⟩ := h
  · simp [build_index, ask_question, hfe, hqe]
  · rw [build_index_error_branch burl files _ r hf rfl hs,
      ask_question_error_branch burl q _ r hq rfl hs]

theorem error_paths_identical_witness :
    (build_index "u" [sampleFile] (fun _ => HttpOutcome.exn "boom")).1 =
      (ask_question "u" "What is TCP?" (fun _ => HttpOutcome.exn "boom")).1 :=
  error_paths_identical "u" [sampleFile] "What is TCP?" (HttpOutcome.exn "boom")
    (List.cons_ne_nil _ _) (by decide) (Or.inl ⟨"boom", rfl⟩)

/-- C9: on a status-200 response whose body parses, both operations return
the parsed body itself, unmodified (so any chunk ordering in the body is
preserved exactly). -/
theorem success_returns_body (burl : String) (files : List UploadedFile) (q : String)
    (net : Request → HttpOutcome) (rb ra : Response) (jb ja : Json)
    (hf : files ≠ []) (hq : pyStrip q ≠ "")
    (hnb : net (buildRequest burl files) = .resp rb) (hsb : rb.status = 200)
    (hjb : rb.jsonBody = some jb)
    (hna : net (askRequest burl q) = .resp ra) (hsa : ra.status = 200)
    (hja : ra.jsonBody = some ja) :
    (build_index burl files net).1 = .ok jb ∧ (ask_question burl q net).1 = .ok ja := by
  have hfe := isEmpty_false_of_ne_nil hf
  have hqe := string_isEmpty_false hq
  constructor
  · simp [build_index, hfe, hnb, hsb, hjb]
  · simp [ask_question, hqe, hna, hsa, hja]

theorem success_returns_body_witness :
    (build_index "u" [sampleFile] successNet).1 = .ok (.obj [("chunks", .num 42)]) ∧
    (ask_question "u" "What is X?" successNet).1 = .ok askSuccessBody :=
  success_returns_body "u" [sampleFile] "What is X?" successNet
    ⟨200, "", some (.obj [("chunks", .num 42)])⟩ ⟨200, "", some askSuccessBody⟩
    (.obj [("chunks", .num 42)]) askSuccessBody
    (List.cons_ne_nil _ _) (by decide) rfl rfl rfl rfl rfl rfl

theorem pyRstripSlash_spec (s : String) :
    (∃ n, s.data = (pyRstripSlash s).data ++ List.replicate n '/') ∧
    (pyRstripSlash s).data.getLast? ≠ some '/' := by
  have hburl : (pyRstripSlash s).data
      = (s.data.reverse.dropWhile fun c => c == '/').reverse := rfl
  constructor
  · refine ⟨(s.data.reverse.takeWhile fun c => c == '/').length, ?_⟩
    have hsplit := List.takeWhile_append_dropWhile
      (p := fun c => c == '/') (l := s.data.reverse)
    have hrep : (s.data.reverse.takeWhile fun c => c == '/')
        = List.replicate (s.data.reverse.takeWhile fun c => c == '/').length '/' := by
      apply List.eq_replicate_of_mem
      intro b hb
      simpa [beq_iff_eq] using List.mem_takeWhile_imp hb
    calc s.data = s.data.reverse.reverse := by simp
      _ = ((s.data.reverse.takeWhile fun c => c == '/')
            ++ (s.data.reverse.dropWhile fun c => c == '/')).reverse := by rw [hsplit]
      _ = (s.data.reverse.dropWhile fun c => c == '/').reverse
            ++ (s.data.reverse.takeWhile fun c => c == '/').reverse := by
          rw [List.reverse_append]
      _ = (pyRstripSlash s).data
            ++ List.replicate (s.data.reverse.takeWhile fun c => c == '/').length '/' := by
          rw [hburl]
          congr 1
          rw [hrep, List.reverse_replicate]
          simp
  · intro hcontra
    rw [hburl, List.getLast?_reverse] at hcontra
    have := head?_dropWhile_false hcontra
    simp at this

/-- C6 counterexample: when the override is present but empty, resolution
returns the empty string, not the compiled-in default, contradicting the
claim's "present and non-empty ... otherwise the fixed default". -/
theorem backend_url_empty_override :
    BACKEND_URL (some "") = "" ∧ BACKEND_URL none = DEFAULT_BACKEND ∧
      DEFAULT_BACKEND ≠ "" := by
  refine ⟨rfl, rfl, ?_⟩
  decide

/-- C6 (amended): resolution never fails, returns the override whenever the
environment variable is present — even when it is empty, in which case the
result is the empty string rather than the default — and the fixed default
when it is absent; in both cases every trailing slash is stripped (the
result never ends in `/` and differs from the source value only by a
trailing run of slashes). -/
theorem backend_url_resolution (env : Option String) :
    (∃ n, (env.getD DEFAULT_BACKEND).data
        = (BACKEND_URL env).data ++ List.replicate n '/') ∧
    (BACKEND_URL env).data.getLast? ≠ some '/' :=
  pyRstripSlash_spec (env.getD DEFAULT_BACKEND)

/-- C7 counterexample: a successful ask response missing `answer` is
rendered with the placeholder text `No answer returned.`, not with the
empty string the claim names as the default for missing string fields. -/
theorem ask_missing_answer_placeholder :
    (ask_question "u" "What is X?" noAnswerBodyNet).1 = .ok noAnswerBody ∧
    renderAskResult noAnswerBody =
      .ok (.success (.str "No answer returned.") (.str "Y") (.arr [])) ∧
    ("No answer returned." : String) ≠ "" := by
  refine ⟨rfl, rfl, ?_⟩
  decide

/-- C7 (amended): rendering a successful ask body (a JSON object with no
`error` key) never faults, and missing optional fields degrade to fixed
defaults: the placeholder `No answer returned.` for `answer`, the empty
string for `context`, the empty sequence for `chunks`. -/
theorem ask_missing_fields_defaults (fs : List (String × Json))
    (he : lookupKey "error" fs = none) :
    ∃ a c ch : Json, renderAskResult (.obj fs) = .ok (.success a c ch) ∧
      (lookupKey "answer" fs = none → a = .str "No answer returned.") ∧
      (lookupKey "context" fs = none → c = .str "") ∧
      (lookupKey "chunks" fs = none → ch = .arr []) := by
  have hany : (fs.any fun p => p.1 == "error") = false := by
    rw [← lookupKey_isSome_eq_any, he]
    rfl
  refine ⟨(lookupKey "answer" fs).getD (.str "No answer returned."),
    (lookupKey "context" fs).getD (.str ""),
    (lookupKey "chunks" fs).getD (.arr []), ?_, ?_, ?_, ?_⟩
  · simp [renderAskResult, pyContains, hany, pyGet]
  · intro h
    simp [h]
  · intro h
    simp [h]
  · intro h
    simp [h]

theorem ask_missing_fields_defaults_witness :
    renderAskResult (.obj []) =
      .ok (.success (.str "No answer returned.") (.str "") (.arr [])) := by
  obtain ⟨a, c, ch, h1, h2, h3, h4⟩ := ask_missing_fields_defaults [] rfl
  rw [h1, h2 rfl, h3 rfl, h4 rfl]

/-- C10: the controller renders a result as failure exactly when the dict
has an `error` key — for the build and the ask workflow alike — so a
status-200 body that happens to contain an `error` key is returned as-is
by `build_index` and then presented as a failure. -/
theorem error_key_classification (burl : String) (files : List UploadedFile)
    (net : Request → HttpOutcome) (r : Response) (fs : List (String × Json))
    (hf : files ≠ []) (hb : net (buildRequest burl files) = .resp r)
    (hs : r.status = 200) (hj : r.jsonBody = some (.obj fs))
    (he : lookupKey "error" fs ≠ none) :
    (∀ gs : List (String × Json),
        buildRendersFailure (.obj gs) = (lookupKey "error" gs).isSome ∧
        askRendersFailure (.obj gs) = (lookupKey "error" gs).isSome) ∧
    (build_index burl files net).1 = .ok (.obj fs) ∧
    buildRendersFailure (.obj fs) = true := by
  have hall : ∀ gs : List (String × Json),
      buildRendersFailure (.obj gs) = (lookupKey "error" gs).isSome ∧
      askRendersFailure (.obj gs) = (lookupKey "error" gs).isSome := by
    intro gs
    have hany : (gs.any fun p => p.1 == "error") = (lookupKey "error" gs).isSome :=
      (lookupKey_isSome_eq_any "error" gs).symm
    cases hl : lookupKey "error" gs with
    | none =>
        constructor
        · simp [buildRendersFailure, renderBuildResult, pyContains, hany, hl, pyGet]
        · simp [askRendersFailure, renderAskResult, pyContains, hany, hl, pyGet]
    | some v =>
        constructor
        · simp [buildRendersFailure, renderBuildResult, pyContains, pyGetItem, hany, hl]
        · simp [askRendersFailure, renderAskResult, pyContains, pyGetItem, hany, hl]
  refine ⟨hall, ?_, ?_⟩
  · have hfe := isEmpty_false_of_ne_nil hf
    simp [build_index, hfe, hb, hs, hj]
  · rw [(hall fs).1]
    cases hl : lookupKey "error" fs with
    | none => exact absurd hl he
    | some v => rfl

theorem error_key_classification_witness :
    (build_index "u" [sampleFile] errorBodyNet).1 = .ok (.obj [("error", .str "boom")]) ∧
    buildRendersFailure (.obj [("error", .str "boom")]) = true := by
  obtain ⟨hall, hres, hfail⟩ := error_key_classification "u" [sampleFile] errorBodyNet
    ⟨200, "", some (.obj [("error", .str "boom")])⟩ [("error", .str "boom")]
    (List.cons_ne_nil _ _) rfl rfl rfl (fun h => Option.noConfusion h)
  exact ⟨hres, hfail⟩

end StudyAssistant
